import Mathlib

/-!
Shallow embedding of the client-side logic of `src/components/Dashboard.tsx`
(3D-printer dashboard, a single React component).

Modelling conventions:
- Numeric fields that the component only copies or displays (temperatures,
  filament, progress) are carried as `Int`; no arithmetic is done on them.
- A timestamp string parsed with `new Date(s).getTime()` is modelled directly
  as the resulting numeric value (`start_time : Int`), since the component
  compares jobs only through that number.
- An optional JSON field that the backend serialises as `null` is `Option`,
  with `none` standing for the JS `null` that the code tests with `=== null`.
- A fallible HTTP request is an `Option`-typed response parameter: `none`
  collapses network failure, a non-ok HTTP status and a malformed body, which
  the component treats identically (one catch-all `catch`).
- Each event handler becomes a pure function from the component state and the
  response outcome to an `Outcome`: the next state, the list of messages shown
  through the blocking `alert` call, and the list of endpoints it POSTed to.
  A handler being a total Lean function models the fact that the original
  catches every exception and never throws to its caller.
-/

namespace Dashboard

/-- The `PrinterStatus` interface of the source. -/
structure PrinterStatus where
  state : String
  nozzle_temperature : Int
  bed_temperature : Int
  operational : Bool
  printing : Bool
  paused : Bool
deriving DecidableEq

/-- The `Job` interface of the source. `start_time` is the parsed timestamp
value used by the sort comparator; `end_time = none` is the JS `null`. -/
structure Job where
  id : Int
  file_name : String
  status : String
  start_time : Int
  end_time : Option String
  filament_used : Option Int
  progress : Option Int
  estimated_completion_time : Option Int
deriving DecidableEq

/-- One entry of the `temperatureData` chart buffer. -/
structure TemperatureSample where
  time : String
  nozzle : Int
  bed : Int
deriving DecidableEq

/-- The `rating` form state. -/
structure RatingDraft where
  quality : String
  speed : String
  feedback : String
  jobId : Option Int
deriving DecidableEq

/-- All `useState` slices of the component. -/
structure DashboardState where
  printerData : Option PrinterStatus
  jobHistory : List Job
  currentJob : Option Job
  temperatureData : List TemperatureSample
  lastValidCommand : Option String
  nextValidCommand : String
  rating : RatingDraft
deriving DecidableEq

/-- Result of running one event handler: next state, `alert` messages shown,
endpoints POSTed to. -/
structure Outcome where
  state : DashboardState
  alerts : List String
  posts : List String
deriving DecidableEq

/-- Endpoint constant `RATE_PRINT_API` of the source. -/
def RATE_PRINT_API : String := "http://localhost:5000/dashboard/rate-job"

/-- Endpoint constant `PAUSE_PRINT_API` of the source. -/
def PAUSE_PRINT_API : String := "http://localhost:5000/dashboard/pause"

/-- The inline next-valid-command URL of `submitNextValidCommand`. -/
def NEXT_VALID_API : String := "http://localhost:5000/dashboard/next-valid"

/-- The sort comparator of `fetchJobs`: `(a, b) ⇒ time(b) - time(a)`,
descending by start time, so `a` precedes `b` when `b` starts no later. -/
def jobLater (a b : Job) : Prop := b.start_time ≤ a.start_time

instance : DecidableRel jobLater := fun a b => Int.decLe b.start_time a.start_time

instance : IsTotal Job jobLater := ⟨fun a b => le_total b.start_time a.start_time⟩

instance : IsTrans Job jobLater := ⟨fun _ _ _ hab hbc => le_trans hbc hab⟩

/-- `jobs.sort((a, b) => new Date(b.start_time).getTime() - new Date(a.start_time).getTime())`,
a stable sort placing newest start times first (insertion sort is stable, as
the JS built-in sort is required to be). -/
def sortJobs (jobs : List Job) : List Job := jobs.insertionSort jobLater

/-- The three-way active-status disjunction repeated in `fetchJobs`. -/
def isActiveStatus (s : String) : Bool :=
  s == "STARTED" || s == "RESUMED" || s == "PAUSED"

/-- The predicate of `jobs.find` in `fetchJobs`: active status and
`end_time === null`. -/
def isOngoing (job : Job) : Bool :=
  isActiveStatus job.status && job.end_time == none

/-- The candidate active job: first match of `isOngoing` in the sorted list. -/
def candidateActive (jobs : List Job) : Option Job :=
  (sortJobs jobs).find? isOngoing

/-- The job-reconciliation logic of `fetchJobs`, transcribed statement by
statement. `ongoingJob` starts as the find result; the fallback `if` block
runs when no candidate was found, a previous job was tracked and it had an
active status; inside it, the only assignment is `ongoingJob = undefined`
(under the FINISHED/FAILED test), the other paths leave `ongoingJob` as it
was (which is `none` on every path of this block). The final value models
`setCurrentJob(ongoingJob || null)`. -/
def reconcileCurrentJob (currentJob : Option Job) (fetched : List Job) : Option Job :=
  let jobs := sortJobs fetched
  let ongoingJob : Option Job := jobs.find? isOngoing
  let ongoingJob : Option Job :=
    match ongoingJob, currentJob with
    | none, some cj =>
      if isActiveStatus cj.status then
        match jobs.find? (fun job => job.id == cj.id) with
        | some updatedJob =>
          if updatedJob.status == "FINISHED" || updatedJob.status == "FAILED" then
            none
          else
            none
        | none => none
      else
        none
    | o, _ => o
  ongoingJob

/-- The telemetry-buffer update of `fetchPrinterStatus`:
`[...prevData.slice(-19), sample]` (keep the last 19 entries, append one). -/
def pushSample (prevData : List TemperatureSample) (sample : TemperatureSample) :
    List TemperatureSample :=
  prevData.drop (prevData.length - 19) ++ [sample]

/-- `fetchPrinterStatus`: on success replace `printerData` and append one
telemetry sample (`now` models `new Date().toLocaleTimeString()`); on failure
only `console.error` runs, so the state is untouched and nothing is alerted. -/
def fetchPrinterStatus (st : DashboardState) (resp : Option PrinterStatus)
    (now : String) : Outcome :=
  match resp with
  | some data =>
    { state := { st with
        printerData := some data,
        temperatureData := pushSample st.temperatureData
          { time := now, nozzle := data.nozzle_temperature, bed := data.bed_temperature } },
      alerts := [], posts := [] }
  | none => { state := st, alerts := [], posts := [] }

/-- `fetchJobs`: on success store the sorted list and the reconciled current
job; on failure only `console.error` runs. -/
def fetchJobs (st : DashboardState) (resp : Option (List Job)) : Outcome :=
  match resp with
  | some jobs =>
    { state := { st with
        jobHistory := sortJobs jobs,
        currentJob := reconcileCurrentJob st.currentJob jobs },
      alerts := [], posts := [] }
  | none => { state := st, alerts := [], posts := [] }

/-- `fetchLastValidCommand`: on success store `data.command`; on failure the
catch block stores the literal string shown below. -/
def fetchLastValidCommand (st : DashboardState) (resp : Option String) : Outcome :=
  match resp with
  | some command => { state := { st with lastValidCommand := some command },
                      alerts := [], posts := [] }
  | none => { state := { st with lastValidCommand := some "Error fetching command." },
              alerts := [], posts := [] }

/-- `sendCommand(endpoint, successMessage)`: POST with no body; on success
alert the success message and re-run `fetchPrinterStatus` (whose own response
outcome is `statusResp`); on failure alert the fixed failure message and leave
the state untouched. -/
def sendCommand (st : DashboardState) (endpoint : String) (ok : Bool)
    (successMessage : String) (statusResp : Option PrinterStatus) (now : String) :
    Outcome :=
  if ok then
    { state := (fetchPrinterStatus st statusResp now).state,
      alerts := [successMessage], posts := [endpoint] }
  else
    { state := st, alerts := ["Command failed. Check logs."], posts := [endpoint] }

/-- The JS falsiness test `!rating.jobId` on a `number | null` value:
true for `null` and for `0`. -/
def jsFalsy (jobId : Option Int) : Bool :=
  match jobId with
  | none => true
  | some n => n == 0

/-- `submitRating`: guard on `!rating.jobId` (no request, local alert);
otherwise POST to `RATE_PRINT_API`; on success clear quality, speed and
feedback but keep `jobId`; on failure alert and leave the state untouched. -/
def submitRating (st : DashboardState) (ok : Bool) : Outcome :=
  if jsFalsy st.rating.jobId then
    { state := st, alerts := ["No job selected for rating."], posts := [] }
  else if ok then
    { state := { st with rating :=
        { quality := "", speed := "", feedback := "", jobId := st.rating.jobId } },
      alerts := ["Print rating submitted successfully!"], posts := [RATE_PRINT_API] }
  else
    { state := st, alerts := ["Failed to submit rating."], posts := [RATE_PRINT_API] }

/-- The JS `String.prototype.trim()`: strip leading and trailing whitespace
(modelled over the character list so that it evaluates). -/
def jsTrim (s : String) : String :=
  String.mk (((s.data.dropWhile Char.isWhitespace).reverse.dropWhile Char.isWhitespace).reverse)

/-- `submitNextValidCommand`: guard on `!nextValidCommand.trim()` (no request,
local alert); otherwise POST; on success reset the input to the empty string;
on failure alert and leave the state untouched. -/
def submitNextValidCommand (st : DashboardState) (ok : Bool) : Outcome :=
  if jsTrim st.nextValidCommand == "" then
    { state := st, alerts := ["Please enter a valid command."], posts := [] }
  else if ok then
    { state := { st with nextValidCommand := "" },
      alerts := ["Next valid command submitted successfully!"], posts := [NEXT_VALID_API] }
  else
    { state := st, alerts := ["Failed to submit next valid command."],
      posts := [NEXT_VALID_API] }

/-- `disabled={!printerData.printing || printerData.paused}` on the pause button. -/
def pauseDisabled (printerData : PrinterStatus) : Bool :=
  !printerData.printing || printerData.paused

/-- `disabled={!printerData.paused}` on the continue button. -/
def continueDisabled (printerData : PrinterStatus) : Bool :=
  !printerData.paused

/-- `disabled={!printerData.printing && !printerData.paused}` on the cancel button. -/
def cancelDisabled (printerData : PrinterStatus) : Bool :=
  !printerData.printing && !printerData.paused

/-- The preheat button carries no `disabled` attribute; it is rendered (and
enabled) whenever a printer status is loaded. -/
def preheatDisabled (_printerData : PrinterStatus) : Bool := false

/-- A button is enabled when its `disabled` attribute is false. -/
def pauseEnabled (p : PrinterStatus) : Bool := !pauseDisabled p

def continueEnabled (p : PrinterStatus) : Bool := !continueDisabled p

def cancelEnabled (p : PrinterStatus) : Bool := !cancelDisabled p

def preheatEnabled (p : PrinterStatus) : Bool := !preheatDisabled p

/-- `s.padStart(2, "0")`: left-pad with zeros until the length is at least 2. -/
def padStart2 (s : String) : String :=
  if 2 ≤ s.length then s else String.mk (List.replicate (2 - s.length) '0') ++ s

/-- `formatDuration` of the source. `none` is the `undefined` argument; the
`!seconds` guard also catches `0`. Integer division models `Math.floor` on
the nonnegative integer inputs the spec speaks about. -/
def formatDuration (seconds : Option Nat) : String :=
  match seconds with
  | none => "N/A"
  | some s =>
    if s = 0 then "N/A"
    else
      padStart2 (Nat.repr (s / 3600)) ++ ":" ++
        padStart2 (Nat.repr (s % 3600 / 60)) ++ ":" ++
        padStart2 (Nat.repr (s % 60))

/-- Specification-side rendering of a number zero-padded to two digits, used
to state what `formatDuration` produces without mentioning `padStart`. -/
def zeroPad2 (n : Nat) : String :=
  if n < 10 then "0" ++ Nat.repr n else Nat.repr n

/-- Helper: on a list sorted descending by start time, a successful `find?`
returns an element whose start time dominates every other hit of the predicate. -/
theorem find?_sorted_max {l : List Job} {j : Job}
    (hs : List.Sorted jobLater l) (h : l.find? isOngoing = some j) :
    ∀ k ∈ l, isOngoing k = true → k.start_time ≤ j.start_time := by
  induction l with
  | nil => simp at h
  | cons a t ih =>
    rcases List.sorted_cons.mp hs with ⟨ha, ht⟩
    by_cases hpa : isOngoing a = true
    · rw [List.find?_cons_of_pos _ hpa] at h
      cases h
      intro k hk _
      rcases List.mem_cons.mp hk with rfl | hk
      · exact le_refl _
      · exact ha k hk
    · rw [List.find?_cons_of_neg _ hpa] at h
      intro k hk hpk
      rcases List.mem_cons.mp hk with rfl | hk
      · exact absurd hpk hpa
      · exact ih ht h k hk hpk

/-- Helper: membership is preserved by the job sort. -/
theorem mem_sortJobs {l : List Job} {x : Job} : x ∈ sortJobs l ↔ x ∈ l := by
  unfold sortJobs
  exact List.mem_insertionSort jobLater

/-- Helper: the fallback block of `fetchJobs` never changes the outcome (the
only assignment it can make writes `undefined` into a variable that is already
`undefined`), so the reconciler always returns exactly the sorted-find
candidate. -/
theorem reconcileCurrentJob_eq_candidateActive (cur : Option Job) (l : List Job) :
    reconcileCurrentJob cur l = candidateActive l := by
  unfold reconcileCurrentJob candidateActive
  cases h : (sortJobs l).find? isOngoing with
  | none =>
    cases cur with
    | none => simp [h]
    | some cj =>
      simp only [h]
      by_cases hact : isActiveStatus cj.status = true
      · simp only [hact, if_true]
        cases hf : (sortJobs l).find? (fun job => job.id == cj.id) with
        | none => simp [hf]
        | some updatedJob =>
          simp only [hf]
          split <;> rfl
      · simp [hact]
  | some j => simp [h]

/-- C1: for every fetched job list the Job Reconciler selects at most one
active job — its result is the single sorted-find candidate; any selected
candidate satisfies the active-status-and-no-end-time predicate and is
most recent by start time among all jobs of the list satisfying it; and when
no job of the list satisfies the predicate, no candidate is selected. -/
theorem reconciler_selects_most_recent_active (prev : Option Job) (l : List Job) :
    reconcileCurrentJob prev l = candidateActive l ∧
    (∀ j, candidateActive l = some j →
      isOngoing j = true ∧ j ∈ l ∧
        ∀ k ∈ l, isOngoing k = true → k.start_time ≤ j.start_time) ∧
    ((∀ j ∈ l, isOngoing j = false) → candidateActive l = none) := by
  refine ⟨reconcileCurrentJob_eq_candidateActive prev l, ?_, ?_⟩
  · intro j hj
    have hmem : j ∈ l := mem_sortJobs.mp (List.mem_of_find?_eq_some hj)
    refine ⟨List.find?_some hj, hmem, ?_⟩
    intro k hk hpk
    exact find?_sorted_max (List.sorted_insertionSort jobLater l) hj k
      (mem_sortJobs.mpr hk) hpk
  · intro hnone
    unfold candidateActive
    apply List.find?_eq_none.mpr
    intro x hx
    simp [hnone x (mem_sortJobs.mp hx)]

def wJob1 : Job := ⟨1, "a.gcode", "STARTED", 100, none, none, none, none⟩

def wJob2 : Job := ⟨2, "b.gcode", "FINISHED", 50, some "2024-01-01", none, none, none⟩

def wJob3 : Job := ⟨3, "c.gcode", "PAUSED", 200, none, none, none, none⟩

/-- Witness for C1: on a concrete three-job list the selected candidate is the
most recent active job. -/
theorem reconciler_selects_most_recent_active_witness :
    isOngoing wJob3 = true ∧ wJob3 ∈ [wJob2, wJob1, wJob3] ∧
      ∀ k ∈ [wJob2, wJob1, wJob3], isOngoing k = true →
        k.start_time ≤ wJob3.start_time :=
  (reconciler_selects_most_recent_active none [wJob2, wJob1, wJob3]).2.1 wJob3
    (by decide)

def staleJob : Job := ⟨7, "tower.gcode", "STARTED", 1000, none, none, none, none⟩

/-- C2 (divergence exhibit): with a tracked active job and a transient empty
poll — no candidate in the new list and no terminal transition — the code
resets the current job to `none` instead of retaining it: the fallback block
of `fetchJobs` can only write `undefined` into `ongoingJob`, which is already
`undefined` on every path that reaches the block. -/
theorem reconciler_drops_previous_on_empty_poll :
    isActiveStatus staleJob.status = true ∧
    reconcileCurrentJob (some staleJob) [] = none := by decide

/-- C3: when the job list has no candidate active job and the tracked job
reappears with status FINISHED or FAILED, the reconciler clears the current
job, and running it again on the same list from the cleared state leaves it
cleared. -/
theorem terminal_status_clears_current_job_idempotently
    (cj upd : Job) (l : List Job)
    (hact : isActiveStatus cj.status = true)
    (hno : ∀ j ∈ l, isOngoing j = false)
    (hupd : upd ∈ l) (hid : upd.id = cj.id)
    (hterm : upd.status = "FINISHED" ∨ upd.status = "FAILED") :
    reconcileCurrentJob (some cj) l = none ∧ reconcileCurrentJob none l = none := by
  have hcand : candidateActive l = none := by
    unfold candidateActive
    apply List.find?_eq_none.mpr
    intro x hx
    simp [hno x (mem_sortJobs.mp hx)]
  rw [reconcileCurrentJob_eq_candidateActive, reconcileCurrentJob_eq_candidateActive]
  exact ⟨hcand, hcand⟩

def doneJobPrev : Job := ⟨4, "d.gcode", "STARTED", 300, none, none, none, none⟩

def doneJobNew : Job := ⟨4, "d.gcode", "FINISHED", 300, some "2024-01-02", none, none, none⟩

/-- Witness for C3: a tracked STARTED job reappearing as FINISHED is cleared,
and stays cleared on the repeated poll. -/
theorem terminal_status_clears_current_job_idempotently_witness :
    reconcileCurrentJob (some doneJobPrev) [doneJobNew] = none ∧
      reconcileCurrentJob none [doneJobNew] = none :=
  terminal_status_clears_current_job_idempotently doneJobPrev doneJobNew [doneJobNew]
    (by decide) (by decide) (by decide) (by decide) (Or.inl (by decide))

/-- Helper: folding the telemetry append over any sample sequence from any
buffer of at most 20 entries keeps exactly the 20 most recent entries. -/
theorem foldl_pushSample (l : List TemperatureSample) :
    ∀ buf : List TemperatureSample, buf.length ≤ 20 →
      List.foldl pushSample buf l = (buf ++ l).drop (buf.length + l.length - 20) := by
  induction l with
  | nil =>
    intro buf h
    have h0 : buf.length - 20 = 0 := by omega
    simp [h0]
  | cons x xs ih =>
    intro buf h
    rw [List.foldl_cons]
    have hlen : (pushSample buf x).length ≤ 20 := by
      unfold pushSample
      simp
      omega
    rw [ih (pushSample buf x) hlen]
    unfold pushSample
    rw [List.append_assoc, List.singleton_append]
    rw [List.drop_append_eq_append_drop, List.drop_append_eq_append_drop,
      List.drop_drop]
    congr 1
    · congr 1
      simp only [List.length_append, List.length_drop, List.length_cons,
        List.length_nil]
      omega
    · congr 1
      simp only [List.length_append, List.length_drop, List.length_cons,
        List.length_nil]
      omega

/-- C4: starting from the empty buffer, any sequence of appends leaves at most
20 samples, and 25 appends leave exactly the last 20 appended samples in
their append order. -/
theorem telemetry_buffer_window (l : List TemperatureSample) :
    (List.foldl pushSample [] l).length ≤ 20 ∧
    (l.length = 25 → List.foldl pushSample [] l = l.drop 5) := by
  have h := foldl_pushSample l [] (by simp)
  simp only [List.nil_append, List.length_nil, Nat.zero_add] at h
  constructor
  · rw [h, List.length_drop]
    omega
  · intro h25
    rw [h, h25]

/-- Witness for C4: 25 concrete appends keep exactly the last 20 samples. -/
theorem telemetry_buffer_window_witness :
    List.foldl pushSample []
        ((List.range 25).map (fun n => ⟨Nat.repr n, Int.ofNat n, 0⟩)) =
      ((List.range 25).map (fun n => ⟨Nat.repr n, Int.ofNat n, 0⟩)).drop 5 :=
  (telemetry_buffer_window
      ((List.range 25).map (fun n => ⟨Nat.repr n, Int.ofNat n, 0⟩))).2 (by decide)

def pollState : DashboardState :=
  { printerData := none, jobHistory := [], currentJob := none, temperatureData := [],
    lastValidCommand := some "G1 X0", nextValidCommand := "",
    rating := { quality := "", speed := "", feedback := "", jobId := none } }

/-- C5 counterexample: a failed last-valid-command poll does not leave every
state slice unchanged — it overwrites `lastValidCommand` with an error string
(which the paused-state panel then displays). -/
theorem failed_lastValid_poll_mutates_state :
    (fetchLastValidCommand pollState none).state ≠ pollState ∧
    (fetchLastValidCommand pollState none).state.lastValidCommand =
      some "Error fetching command." := by decide

/-- C5 amended: a failed printer-status poll and a failed jobs poll leave the
whole state unchanged and alert nothing; a failed last-valid-command poll
alerts nothing and leaves every slice unchanged except `lastValidCommand`,
which it overwrites with the fixed error string. -/
theorem background_poll_failure_frame (st : DashboardState) (now : String) :
    fetchPrinterStatus st none now = { state := st, alerts := [], posts := [] } ∧
    fetchJobs st none = { state := st, alerts := [], posts := [] } ∧
    fetchLastValidCommand st none =
      { state := { st with lastValidCommand := some "Error fetching command." },
        alerts := [], posts := [] } :=
  ⟨rfl, rfl, rfl⟩

/-- C6: each control button is enabled as a pure function of the
`{printing, paused}` flags — pause iff printing and not paused, continue iff
paused, cancel iff printing or paused, preheat always (whenever a status is
loaded, which is the only situation in which the buttons render); the two
concrete flag combinations called out by the specification behave as stated. -/
theorem button_enablement_pure (p : PrinterStatus) :
    pauseEnabled p = (p.printing && !p.paused) ∧
    continueEnabled p = p.paused ∧
    cancelEnabled p = (p.printing || p.paused) ∧
    preheatEnabled p = true ∧
    (p.printing = true → p.paused = false →
      pauseEnabled p = true ∧ continueEnabled p = false ∧ cancelEnabled p = true) ∧
    (p.printing = false → p.paused = true →
      pauseEnabled p = false ∧ continueEnabled p = true ∧ cancelEnabled p = true) := by
  cases hp : p.printing <;> cases hq : p.paused <;>
    simp [pauseEnabled, continueEnabled, cancelEnabled, preheatEnabled,
      pauseDisabled, continueDisabled, cancelDisabled, preheatDisabled, hp, hq]

/-- Witness for C6 at the two concrete statuses named by the specification. -/
theorem button_enablement_pure_witness :
    (pauseEnabled ⟨"Printing", 210, 60, true, true, false⟩ = true ∧
      continueEnabled ⟨"Printing", 210, 60, true, true, false⟩ = false ∧
      cancelEnabled ⟨"Printing", 210, 60, true, true, false⟩ = true) ∧
    (pauseEnabled ⟨"Idle", 210, 60, true, false, true⟩ = false ∧
      continueEnabled ⟨"Idle", 210, 60, true, false, true⟩ = true ∧
      cancelEnabled ⟨"Idle", 210, 60, true, false, true⟩ = true) :=
  ⟨(button_enablement_pure ⟨"Printing", 210, 60, true, true, false⟩).2.2.2.2.1
      rfl rfl,
    (button_enablement_pure ⟨"Idle", 210, 60, true, false, true⟩).2.2.2.2.2
      rfl rfl⟩

/-- C9: a failed control POST (here the pause endpoint, for any endpoint and
success message) leaves the whole state — in particular `printerData` and its
`paused` flag — unchanged, shows exactly the generic failure notice, and
returns normally (the handler is a total function: the catch block swallows
the error). -/
theorem sendCommand_failure_frame (st : DashboardState) (endpoint : String)
    (successMessage : String) (statusResp : Option PrinterStatus) (now : String) :
    sendCommand st endpoint false successMessage statusResp now =
      { state := st, alerts := ["Command failed. Check logs."], posts := [endpoint] } ∧
    (sendCommand st PAUSE_PRINT_API false successMessage statusResp now).state.printerData
      = st.printerData :=
  ⟨rfl, rfl⟩

/-- Helper: a single decimal digit renders as one character. -/
theorem repr_length_of_lt_ten {n : Nat} (h : n < 10) : (Nat.repr n).length = 1 := by
  interval_cases n <;> rfl

/-- Helper: the digit list produced with positive fuel is nonempty. -/
theorem toDigitsCore_length_pos (f m : Nat) (hf : 0 < f) :
    0 < (Nat.toDigitsCore 10 f m []).length := by
  cases f with
  | zero => exact absurd hf (lt_irrefl 0)
  | succ f =>
    simp only [Nat.toDigitsCore]
    by_cases h : m / 10 = 0
    · simp [h]
    · simp only [h, if_false]
      rw [Nat.toDigitsCore_lens_eq]
      omega

/-- Helper: a number of at least two decimal digits renders with length at
least two. -/
theorem repr_length_of_ten_le {n : Nat} (h : 10 ≤ n) : 2 ≤ (Nat.repr n).length := by
  show 2 ≤ (Nat.toDigits 10 n).length
  unfold Nat.toDigits
  simp only [Nat.toDigitsCore]
  have h10 : ¬ n / 10 = 0 := by
    have := Nat.div_pos h (by decide)
    omega
  simp only [h10, if_false]
  rw [Nat.toDigitsCore_lens_eq]
  have := toDigitsCore_length_pos n (n / 10) (by omega)
  omega

/-- Helper: `padStart(2, "0")` applied to a rendered number is exactly the
zero-padded-to-two-digits rendering. -/
theorem padStart2_repr (n : Nat) : padStart2 (Nat.repr n) = zeroPad2 n := by
  unfold padStart2 zeroPad2
  by_cases h : n < 10
  · have h1 : (Nat.repr n).length = 1 := repr_length_of_lt_ten h
    rw [h1, if_neg (by decide), if_pos h]
    rfl
  · have h2 : 2 ≤ (Nat.repr n).length := repr_length_of_ten_le (Nat.le_of_not_lt h)
    rw [if_pos h2, if_neg h]

/-- C7: `formatDuration` maps an absent value and `0` to `"N/A"`, maps `3661`
to `"01:01:01"`, and on every positive number of seconds produces the
zero-padded hours, minutes and seconds joined by colons. -/
theorem formatDuration_spec :
    formatDuration none = "N/A" ∧
    formatDuration (some 0) = "N/A" ∧
    formatDuration (some 3661) = "01:01:01" ∧
    ∀ s : Nat, 0 < s →
      formatDuration (some s) =
        zeroPad2 (s / 3600) ++ ":" ++ zeroPad2 (s % 3600 / 60) ++ ":" ++
          zeroPad2 (s % 60) := by
  refine ⟨rfl, rfl, rfl, ?_⟩
  intro s hs
  simp only [formatDuration]
  rw [if_neg (by omega)]
  rw [padStart2_repr, padStart2_repr, padStart2_repr]

/-- Witness for C7 at 3661 seconds. -/
theorem formatDuration_spec_witness :
    formatDuration (some 3661) =
      zeroPad2 (3661 / 3600) ++ ":" ++ zeroPad2 (3661 % 3600 / 60) ++ ":" ++
        zeroPad2 (3661 % 60) :=
  formatDuration_spec.2.2.2 3661 (by decide)

/-- C8: with no selected job id the rating handler performs no POST, keeps the
whole state (the draft included) unchanged and shows only the local validation
notice; with a selected nonzero job id, a successful POST clears quality,
speed and feedback while the job id is retained. -/
theorem submitRating_guard_and_clear (st : DashboardState) :
    (st.rating.jobId = none →
      ∀ ok, submitRating st ok =
        { state := st, alerts := ["No job selected for rating."], posts := [] }) ∧
    (∀ j : Int, st.rating.jobId = some j → j ≠ 0 →
      submitRating st true =
        { state := { st with rating :=
            { quality := "", speed := "", feedback := "", jobId := some j } },
          alerts := ["Print rating submitted successfully!"],
          posts := [RATE_PRINT_API] }) := by
  constructor
  · intro hnone ok
    simp [submitRating, jsFalsy, hnone]
  · intro j hj hj0
    have hfal : jsFalsy st.rating.jobId = false := by
      rw [hj]
      unfold jsFalsy
      exact beq_eq_false_iff_ne.mpr hj0
    unfold submitRating
    rw [hfal]
    simp [hj]

def ratingStateA : DashboardState :=
  { printerData := none, jobHistory := [], currentJob := none, temperatureData := [],
    lastValidCommand := none, nextValidCommand := "",
    rating := { quality := "7", speed := "5", feedback := "ok", jobId := none } }

def ratingStateB : DashboardState :=
  { ratingStateA with
    rating := { quality := "7", speed := "5", feedback := "ok", jobId := some 4 } }

/-- Witness for C8 at concrete draft states with and without a selected job. -/
theorem submitRating_guard_and_clear_witness :
    submitRating ratingStateA false =
      { state := ratingStateA, alerts := ["No job selected for rating."],
        posts := [] } ∧
    submitRating ratingStateB true =
      { state := { ratingStateB with
          rating := { quality := "", speed := "", feedback := "", jobId := some 4 } },
        alerts := ["Print rating submitted successfully!"],
        posts := [RATE_PRINT_API] } :=
  ⟨(submitRating_guard_and_clear ratingStateA).1 rfl false,
   (submitRating_guard_and_clear ratingStateB).2 4 rfl (by decide)⟩

/-- C10: a blank or whitespace-only next-valid command performs no POST,
keeps the whole state (the input included) unchanged and shows only the local
validation notice; for a non-blank input a failed POST keeps the input while
a successful POST resets it to the empty string. -/
theorem submitNextValidCommand_guard_and_reset (st : DashboardState) :
    (jsTrim st.nextValidCommand = "" →
      ∀ ok, submitNextValidCommand st ok =
        { state := st, alerts := ["Please enter a valid command."], posts := [] }) ∧
    (jsTrim st.nextValidCommand ≠ "" →
      submitNextValidCommand st false =
        { state := st, alerts := ["Failed to submit next valid command."],
          posts := [NEXT_VALID_API] } ∧
      submitNextValidCommand st true =
        { state := { st with nextValidCommand := "" },
          alerts := ["Next valid command submitted successfully!"],
          posts := [NEXT_VALID_API] }) := by
  constructor
  · intro he ok
    simp [submitNextValidCommand, he]
  · intro hne
    have hfal : (jsTrim st.nextValidCommand == "") = false :=
      beq_eq_false_iff_ne.mpr hne
    constructor <;> simp [submitNextValidCommand, hfal]

def cmdStateBlank : DashboardState :=
  { printerData := none, jobHistory := [], currentJob := none, temperatureData := [],
    lastValidCommand := none, nextValidCommand := "   ",
    rating := { quality := "", speed := "", feedback := "", jobId := none } }

def cmdStateFilled : DashboardState :=
  { cmdStateBlank with nextValidCommand := "G1 X10" }

/-- Witness for C10 at a whitespace-only and at a non-blank concrete input. -/
theorem submitNextValidCommand_guard_and_reset_witness :
    submitNextValidCommand cmdStateBlank true =
      { state := cmdStateBlank, alerts := ["Please enter a valid command."],
        posts := [] } ∧
    submitNextValidCommand cmdStateFilled true =
      { state := { cmdStateFilled with nextValidCommand := "" },
        alerts := ["Next valid command submitted successfully!"],
        posts := [NEXT_VALID_API] } :=
  ⟨(submitNextValidCommand_guard_and_reset cmdStateBlank).1 (by decide) true,
   ((submitNextValidCommand_guard_and_reset cmdStateFilled).2 (by decide)).2⟩

end Dashboard
